import Mathlib

/-!
Shallow embedding of the clinical-thinking-backend API (src/main.py,
src/models.py, src/schemas.py, src/config.py) and proofs of the spec
claims about it.

Strings are modelled as `List Char` (Python `str` is a sequence of
characters, sliced and iterated per character). Timestamps are
abstract instants modelled as `Nat` (minutes since some epoch, which
is the unit used by the token layer: `timedelta(minutes=...)`).
-/

namespace ClinicalThinking

/-- A Python string, as a list of characters. -/
abbrev Str := List Char

/-- The ASCII whitespace characters stripped by Python's `str.strip()`
(space, tab, newline, carriage return, vertical tab, form feed).
Python additionally strips non-ASCII Unicode whitespace; the data in
this system is ASCII, where the two agree. -/
def pyIsSpace (c : Char) : Bool :=
  c == ' ' || c == '\t' || c == '\n' || c == '\r' ||
  c == Char.ofNat 11 || c == Char.ofNat 12

/-- Python's `str.lower()` on a character, for the ASCII range
(maps 'A'..'Z' to 'a'..'z', leaves everything else unchanged; Python's
full Unicode case table agrees with this on ASCII). -/
def pyLowerChar (c : Char) : Char :=
  if 'A' ≤ c ∧ c ≤ 'Z' then Char.ofNat (c.toNat + 32) else c

/-- Python's `str.lower()`. -/
def pyLower (s : Str) : Str := s.map pyLowerChar

/-- Python's `str.strip()`: remove leading and trailing whitespace. -/
def pyStrip (s : Str) : Str :=
  ((s.dropWhile pyIsSpace).reverse.dropWhile pyIsSpace).reverse

/-- Is `p` a leading segment of `l`? (helper for the substring test). -/
def leadsList : Str → Str → Bool
  | [], _ => true
  | _ :: _, [] => false
  | a :: as, b :: bs => a == b && leadsList as bs

/-- Python's `needle in hay` on strings: `needle` occurs contiguously
inside `hay` (the empty string occurs in every string). -/
def isSub (needle hay : Str) : Bool :=
  leadsList needle hay ||
  match hay with
  | [] => false
  | _ :: t => isSub needle t

/-- Normalization of main.py lines 434-435: `.lower().strip()`. -/
def pyNormalize (s : Str) : Str := pyStrip (pyLower s)

/-- The score `submit_diagnosis` assigns (main.py lines 433-439):
100 if either normalized string occurs in the other, else 0. -/
def computeScore (correct submitted : Str) : Int :=
  let correct_diagnosis := pyNormalize correct
  let student_diagnosis := pyNormalize submitted
  if isSub correct_diagnosis student_diagnosis ||
     isSub student_diagnosis correct_diagnosis then 100 else 0

/-- The scoring rule as the spec words it: normalize both the case's
canonical diagnosis and the submitted diagnosis by lower-casing and
trimming leading/trailing whitespace; score 100 if the normalized
canonical string is a substring of the normalized submission, or the
normalized submission is a substring of the normalized canonical
string; otherwise 0. -/
def specScore (canonical submitted : Str) : Int :=
  let normCanonical := pyStrip (pyLower canonical)
  let normSubmitted := pyStrip (pyLower submitted)
  if isSub normCanonical normSubmitted ∨ isSub normSubmitted normCanonical
  then 100 else 0

/-! ## Credential store (main.py lines 40-46) -/

/-- UTF-8 encoding of one character (the byte sequence Python's
`str.encode("utf-8")` produces for it), each byte as a `Nat`. -/
def charUtf8 (c : Char) : List Nat :=
  let n := c.toNat
  if n < 0x80 then [n]
  else if n < 0x800 then
    [0xC0 + n / 64, 0x80 + n % 64]
  else if n < 0x10000 then
    [0xE0 + n / 4096, 0x80 + (n / 64) % 64, 0x80 + n % 64]
  else
    [0xF0 + n / 262144, 0x80 + (n / 4096) % 64, 0x80 + (n / 64) % 64,
     0x80 + n % 64]

/-- UTF-8 encoding of a string. -/
def utf8Bytes (s : Str) : List Nat := (s.map charUtf8).flatten

/-- Modelled from the spec: the bcrypt backend behind `pwd_context.hash`
and `pwd_context.verify` is an external library whose internals are out
of scope; the spec's contract is that inputs longer than 72 bytes are
truncated before hashing. We therefore model a digest by its effective
key material: the first 72 UTF-8 bytes of the (already char-sliced)
password, with verification succeeding exactly when the key materials
agree. -/
def bcryptMaterial (password : Str) : List Nat := (utf8Bytes password).take 72

/-- main.py lines 44-46: `pwd_context.hash(password[:72])` — the source
slices to the first 72 characters, then the bcrypt backend caps the key
material at 72 bytes. -/
def get_password_hash (password : Str) : List Nat :=
  bcryptMaterial (password.take 72)

/-- main.py lines 40-41: `pwd_context.verify(plain_password, hashed_password)`
(no slicing on the verify side; the backend caps at 72 bytes). -/
def verify_password (plain_password : Str) (hashed_password : List Nat) : Bool :=
  bcryptMaterial plain_password == hashed_password

/-! ## Token service (main.py lines 49-77, config.py) -/

/-- config.py line 9: `ACCESS_TOKEN_EXPIRE_MINUTES: int = 60 * 24`. -/
def ACCESS_TOKEN_EXPIRE_MINUTES : Nat := 60 * 24

/-- The claims dictionary passed to `create_access_token`: the only key
the application uses is `"sub"`; `payload.get("sub")` may be absent. -/
structure TokenData where
  sub : Option Str
deriving DecidableEq

/-- A signed JWT: the payload plus the absolute expiry (`"exp"`) and the
key it was signed with (signature validity is modelled by key equality —
the token is tamper-evident). -/
structure Jwt where
  data : TokenData
  exp : Nat
  key : Str
deriving DecidableEq

/-- main.py lines 49-57: copy the payload, add `exp` = now + the given
delta (default 15 minutes when no delta is supplied), sign. -/
def create_access_token (data : TokenData) (expires_delta : Option Nat)
    (now : Nat) (key : Str) : Jwt :=
  let expire := match expires_delta with
    | some delta => now + delta
    | none => now + 15
  { data := data, exp := expire, key := key }

/-- Decoding, `jwt.decode(token, SECRET_KEY, algorithms=[ALGORITHM])`: fails
(raises `JWTError`) when the signature does not verify or the embedded
expiry has passed (python-jose rejects when `exp < now`); otherwise
yields the payload. -/
def jwt_decode (token : Jwt) (key : Str) (now : Nat) : Option TokenData :=
  if token.key = key ∧ now ≤ token.exp then some token.data else none

/-- The token-validation half of `get_current_user` (main.py lines
60-73): decode, then extract `payload.get("sub")`, failing (401) when
decoding fails or the subject is absent. -/
def validate_token (token : Jwt) (key : Str) (now : Nat) : Option Str :=
  match jwt_decode token key now with
  | none => none
  | some payload =>
    match payload.sub with
    | none => none
    | some username => some username

/-- main.py lines 103-106: login issues the token with
`expires_delta = timedelta(minutes=settings.ACCESS_TOKEN_EXPIRE_MINUTES)`. -/
def login_token (username : Str) (now : Nat) (key : Str) : Jwt :=
  create_access_token { sub := some username } (some ACCESS_TOKEN_EXPIRE_MINUTES) now key

/-! ## Data model (models.py) -/

/-- models.py lines 8-10. -/
inductive UserRole where
  | teacher
  | student
deriving DecidableEq

/-- models.py lines 71-74. -/
inductive SessionStatus where
  | in_progress
  | completed
  | abandoned
deriving DecidableEq

/-- models.py lines 96-98. -/
inductive DialogueRole where
  | user
  | ai
deriving DecidableEq

/-- models.py lines 13-28 (relationship wiring omitted; relations are
resolved by id lookup against the store). -/
structure User where
  id : Nat
  username : Str
  password_hash : List Nat
  role : UserRole
  full_name : Str
  email : Option Str
  created_at : Nat
deriving DecidableEq

/-- models.py lines 51-68. `patient_info` is a JSON object (string keys
to string values here), the list fields are JSON arrays of strings. -/
structure Case where
  id : Nat
  title : Str
  description : Str
  patient_info : List (Str × Str)
  symptoms : List Str
  questions : List Str
  answers : List Str
  diagnosis : Str
  difficulty : Str
  created_by : Nat
  created_at : Nat
deriving DecidableEq

/-- models.py lines 77-93 (named `Sess` because `Session` is the
SQLAlchemy class name; main.py itself aliases it to `SessionModel`). -/
structure Sess where
  id : Nat
  student_id : Nat
  case_id : Nat
  status : SessionStatus
  score : Option Int
  started_at : Nat
  completed_at : Option Nat
  diagnosis_submitted : Option Nat
  student_diagnosis : Option Str
deriving DecidableEq

/-- models.py lines 101-111. -/
structure Dialogue where
  id : Nat
  session_id : Nat
  message : Str
  role : DialogueRole
  timestamp : Nat
deriving DecidableEq

/-- The relational store: one list per table (classes and the
enrollment relation are omitted — no claim touches them), plus the
autoincrement counters for the two tables these operations insert
into. -/
structure DB where
  users : List User
  cases : List Case
  sessions : List Sess
  dialogues : List Dialogue
  nextSessionId : Nat
  nextDialogueId : Nat
deriving DecidableEq

/-- The error taxonomy at the boundary (spec section 7): 404 → NotFound,
403 → AuthorizationError, 401 → AuthenticationError, 400 "Session is
not active" → InvalidState, 400 duplicate-registration → Conflict. -/
inductive ApiError where
  | notFound
  | authorizationError
  | authenticationError
  | invalidState
  | conflict
deriving DecidableEq

/-- Outcome of one request: a (possibly updated) store and a returned
value, or an error response. `crash` marks a state the Python code
could only hit through a dangling foreign key (an unhandled exception),
unreachable in well-formed stores. -/
inductive OpResult (α : Type) where
  | ok (db : DB) (val : α)
  | err (e : ApiError)
  | crash
deriving DecidableEq

/-- SQLAlchemy `query.filter(p).first()`: the first row satisfying the predicate. -/
def firstSuch (p : α → Prop) [DecidablePred p] : List α → Option α
  | [] => none
  | x :: xs => if p x then some x else firstSuch p xs

/-- Lookup `db.query(Case).filter(Case.id == case_id).first()`. -/
def DB.findCase (db : DB) (case_id : Nat) : Option Case :=
  firstSuch (fun c => c.id = case_id) db.cases

/-- Lookup `db.query(SessionModel).filter(SessionModel.id == session_id).first()`. -/
def DB.findSession (db : DB) (session_id : Nat) : Option Sess :=
  firstSuch (fun s => s.id = session_id) db.sessions

/-- Persist an in-place mutation of one session row (SQLAlchemy mutates
the fetched object and commits; rows have unique ids in a well-formed
store, so replacing by id is the same update). -/
def DB.updateSession (db : DB) (s' : Sess) : DB :=
  { db with sessions := db.sessions.map (fun t => if t.id = s'.id then s' else t) }

/-- Persist an in-place mutation of one case row. -/
def DB.updateCase (db : DB) (c' : Case) : DB :=
  { db with cases := db.cases.map (fun t => if t.id = c'.id then c' else t) }

/-! ## Session endpoints (main.py lines 350-443) -/

/-- The filter of main.py lines 362-366: a session row for the given
student and case whose status is IN_PROGRESS. -/
def openSessionFor (student_id case_id : Nat) (s : Sess) : Prop :=
  s.student_id = student_id ∧ s.case_id = case_id ∧
  s.status = SessionStatus.in_progress

instance (student_id case_id : Nat) : DecidablePred (openSessionFor student_id case_id) :=
  fun s => by unfold openSessionFor; infer_instance

/-- How many IN_PROGRESS session rows the store holds for one
(student, case) pair. -/
def inProgressCount (db : DB) (student_id case_id : Nat) : Nat :=
  db.sessions.countP (fun s => decide (openSessionFor student_id case_id s))

/-- main.py lines 350-379, `create_session` (POST /sessions). The
`current_user` dependency is `get_current_student` (lines 86-89): a
non-student caller is rejected with 403 before the body runs. -/
def create_session (db : DB) (current_user : User) (case_id : Nat)
    (now : Nat) : OpResult Sess :=
  if current_user.role ≠ UserRole.student then .err .authorizationError
  else match db.findCase case_id with
  | none => .err .notFound
  | some _ =>
    match firstSuch (openSessionFor current_user.id case_id) db.sessions with
    | some existing => .ok db existing
    | none =>
      let db_session : Sess :=
        { id := db.nextSessionId
          student_id := current_user.id
          case_id := case_id
          status := SessionStatus.in_progress
          score := none
          started_at := now
          completed_at := none
          diagnosis_submitted := none
          student_diagnosis := none }
      .ok { db with sessions := db.sessions ++ [db_session],
                    nextSessionId := db.nextSessionId + 1 } db_session

/-- main.py lines 416-443, `submit_diagnosis`
(POST /sessions/\x7bsession_id\x7d/diagnosis). Caller dependency is
`get_current_student`. Looks the session up (404), checks ownership
(403), then unconditionally sets the diagnosis text, the submission
timestamp and COMPLETED status, and recomputes the score from
`session.case.diagnosis` — there is no IN_PROGRESS guard. -/
def submit_diagnosis (db : DB) (current_user : User) (session_id : Nat)
    (diagnosis : Str) (now : Nat) : OpResult Sess :=
  if current_user.role ≠ UserRole.student then .err .authorizationError
  else match db.findSession session_id with
  | none => .err .notFound
  | some s =>
    if s.student_id ≠ current_user.id then .err .authorizationError
    else match db.findCase s.case_id with
    | none => .crash
    | some c =>
      let s' : Sess :=
        { s with student_diagnosis := some diagnosis
                 diagnosis_submitted := some now
                 status := SessionStatus.completed
                 score := some (computeScore c.diagnosis diagnosis) }
      .ok (db.updateSession s') s'

/-! ## Dialogue endpoint (main.py lines 448-470) -/

/-- main.py lines 448-470, `create_dialogue` (POST /dialogues). Caller
dependency is `get_current_student`. 404 on unknown session, 403 when
the session's student is not the caller, 400 "Session is not active"
when the session is not IN_PROGRESS; otherwise appends a Dialogue with
timestamp = now. -/
def create_dialogue (db : DB) (current_user : User) (session_id : Nat)
    (message : Str) (role : DialogueRole) (now : Nat) : OpResult Dialogue :=
  if current_user.role ≠ UserRole.student then .err .authorizationError
  else match db.findSession session_id with
  | none => .err .notFound
  | some s =>
    if s.student_id ≠ current_user.id then .err .authorizationError
    else if s.status ≠ SessionStatus.in_progress then .err .invalidState
    else
      let db_dialogue : Dialogue :=
        { id := db.nextDialogueId
          session_id := session_id
          message := message
          role := role
          timestamp := now }
      .ok { db with dialogues := db.dialogues ++ [db_dialogue],
                    nextDialogueId := db.nextDialogueId + 1 } db_dialogue

/-! ## Case endpoints (main.py lines 297-328) -/

/-- main.py lines 297-306, `get_case` (GET /cases/\x7bcase_id\x7d). The
only dependency is `get_current_user` (any authenticated user); the
body does a bare lookup and returns the full record — no role,
ownership or enrollment check. -/
def get_case (db : DB) (current_user : User) (case_id : Nat) : OpResult Case :=
  match db.findCase case_id with
  | none => .err .notFound
  | some c => .ok db c

/-- schemas.py lines 120-128: the partial-update request; a field is
`some v` exactly when it was explicitly present in the request
(`model_dump(exclude_unset=True)` keeps exactly the present fields). -/
structure CaseUpdate where
  title : Option Str
  description : Option Str
  patient_info : Option (List (Str × Str))
  symptoms : Option (List Str)
  questions : Option (List Str)
  answers : Option (List Str)
  diagnosis : Option Str
  difficulty : Option Str
deriving DecidableEq

/-- main.py lines 309-328, `update_case` (PUT /cases/\x7bcase_id\x7d).
Caller dependency is `get_current_teacher`; 404 on unknown case, 403
when the caller is not the creator; then each field present in the
request is assigned onto the row and everything else is untouched. -/
def update_case (db : DB) (current_user : User) (case_id : Nat)
    (case_update : CaseUpdate) : OpResult Case :=
  if current_user.role ≠ UserRole.teacher then .err .authorizationError
  else match db.findCase case_id with
  | none => .err .notFound
  | some c =>
    if c.created_by ≠ current_user.id then .err .authorizationError
    else
      let c' : Case :=
        { c with title := case_update.title.getD c.title
                 description := case_update.description.getD c.description
                 patient_info := case_update.patient_info.getD c.patient_info
                 symptoms := case_update.symptoms.getD c.symptoms
                 questions := case_update.questions.getD c.questions
                 answers := case_update.answers.getD c.answers
                 diagnosis := case_update.diagnosis.getD c.diagnosis
                 difficulty := case_update.difficulty.getD c.difficulty }
      .ok (db.updateCase c') c'

/-! ## Statistics endpoint (main.py lines 491-505) -/

/-- schemas.py lines 220-224. `average_score` is a Python float; the
values divided are exact small integers, modelled exactly in ℚ. -/
structure StudentStats where
  total_sessions : Nat
  completed_sessions : Nat
  average_score : Option ℚ
  total_cases_attempted : Nat
deriving DecidableEq

/-- main.py lines 491-505, `get_student_stats` (GET /stats/student).
Caller dependency is `get_current_student`. -/
def get_student_stats (db : DB) (current_user : User) : OpResult StudentStats :=
  if current_user.role ≠ UserRole.student then .err .authorizationError
  else
    let sessions := db.sessions.filter (fun s => s.student_id = current_user.id)
    let completed := sessions.filter (fun s => s.status = SessionStatus.completed)
    let scores := (completed.map (fun s => s.score)).reduceOption
    .ok db
      { total_sessions := sessions.length
        completed_sessions := completed.length
        average_score :=
          if scores ≠ [] then some ((scores.map (Int.cast : Int → ℚ)).sum / scores.length)
          else none
        total_cases_attempted := (sessions.map (fun s => s.case_id)).dedup.length }

/-! ## Concrete example data (used to exercise the operations) -/

/-- The score in the returned session of a successful request. -/
def scoreOf : OpResult Sess → Option Int
  | .ok _ s => s.score
  | _ => none

/-- A minimal case whose canonical diagnosis is `diag`, created by
teacher 2. -/
def exCase (diag : Str) : Case :=
  { id := 1, title := "Case".data, description := "d".data, patient_info := [],
    symptoms := [], questions := [], answers := [], diagnosis := diag,
    difficulty := "easy".data, created_by := 2, created_at := 0 }

/-- A student account. -/
def exStudent : User :=
  { id := 3, username := "student".data, password_hash := [],
    role := UserRole.student, full_name := "S".data, email := none, created_at := 0 }

/-- A teacher account (id 2, the creator of `exCase`). -/
def exTeacher : User :=
  { id := 2, username := "teacher".data, password_hash := [],
    role := UserRole.teacher, full_name := "T".data, email := none, created_at := 0 }

/-- A second teacher account, not the creator of `exCase`. -/
def exOtherTeacher : User :=
  { id := 9, username := "other".data, password_hash := [],
    role := UserRole.teacher, full_name := "O".data, email := none, created_at := 0 }

/-- An open session of student 3 on case 1. -/
def exSession : Sess :=
  { id := 5, student_id := 3, case_id := 1, status := SessionStatus.in_progress,
    score := none, started_at := 0, completed_at := none,
    diagnosis_submitted := none, student_diagnosis := none }

/-- A store holding the student, the case (with the given canonical
diagnosis) and the open session. -/
def exDB (diag : Str) : DB :=
  { users := [exStudent, exTeacher], cases := [exCase diag],
    sessions := [exSession], dialogues := [], nextSessionId := 6, nextDialogueId := 1 }

/-- The same store before any session exists. -/
def exDB0 (diag : Str) : DB :=
  { users := [exStudent, exTeacher], cases := [exCase diag],
    sessions := [], dialogues := [], nextSessionId := 5, nextDialogueId := 1 }

/-- A store for the statistics example: student 3 has three sessions
over two distinct cases, two of them completed with scores 100 and 0. -/
def exStatsDB : DB :=
  { users := [exStudent, exTeacher]
    cases := [exCase "Flu".data, { exCase "Pneumonia".data with id := 2 }]
    sessions :=
      [ { id := 11, student_id := 3, case_id := 1, status := SessionStatus.completed,
          score := some 100, started_at := 0, completed_at := none,
          diagnosis_submitted := some 4, student_diagnosis := some "flu".data }
      , { id := 12, student_id := 3, case_id := 2, status := SessionStatus.completed,
          score := some 0, started_at := 1, completed_at := none,
          diagnosis_submitted := some 5, student_diagnosis := some "cold".data }
      , { id := 13, student_id := 3, case_id := 1, status := SessionStatus.in_progress,
          score := none, started_at := 2, completed_at := none,
          diagnosis_submitted := none, student_diagnosis := none } ]
    dialogues := [], nextSessionId := 14, nextDialogueId := 1 }

/-! ## Reachability: the mutating operations as a step relation -/

/-- One successful mutating request against the store, over the
operations modelled here (the remaining endpoints either do not touch
the `sessions` table at all or are read-only). -/
inductive Step : DB → DB → Prop where
  | startSession (db : DB) (u : User) (case_id now : Nat) (db' : DB) (s : Sess) :
      create_session db u case_id now = .ok db' s → Step db db'
  | submitDiag (db : DB) (u : User) (session_id : Nat) (d : Str) (now : Nat)
      (db' : DB) (s : Sess) :
      submit_diagnosis db u session_id d now = .ok db' s → Step db db'
  | addDialogue (db : DB) (u : User) (session_id : Nat) (m : Str)
      (r : DialogueRole) (now : Nat) (db' : DB) (dlg : Dialogue) :
      create_dialogue db u session_id m r now = .ok db' dlg → Step db db'
  | caseUpdate (db : DB) (u : User) (case_id : Nat) (cu : CaseUpdate)
      (db' : DB) (c : Case) :
      update_case db u case_id cu = .ok db' c → Step db db'

/-- Stores reachable from a store with no session rows (the `sessions`
table starts empty; users and cases are arbitrary). -/
inductive Reachable : DB → Prop where
  | init (db : DB) : db.sessions = [] → Reachable db
  | step {db db' : DB} : Reachable db → Step db db' → Reachable db'

/-- Submit a first diagnosis on the example store (completing session
5), then re-submit a different diagnosis against the store that
results: the score of the second call. -/
def resubmitScore : Option Int :=
  match submit_diagnosis (exDB "Flu".data) exStudent 5 "flu".data 7 with
  | .ok db' _ => scoreOf (submit_diagnosis db' exStudent 5 "Common Cold".data 8)
  | _ => none

/-! ## Helper lemmas -/

theorem firstSuch_eq_none {α : Type} {p : α → Prop} [DecidablePred p] {l : List α} :
    firstSuch p l = none ↔ ∀ x ∈ l, ¬ p x := by
  induction l with
  | nil => simp [firstSuch]
  | cons a t ih =>
    by_cases h : p a
    · simp [firstSuch, if_pos h, h]
    · simp [firstSuch, if_neg h, h, ih]

theorem firstSuch_eq_some {α : Type} {p : α → Prop} [DecidablePred p] {l : List α}
    {x : α} (h : firstSuch p l = some x) : x ∈ l ∧ p x := by
  induction l with
  | nil => simp [firstSuch] at h
  | cons a t ih =>
    by_cases ha : p a
    · simp [firstSuch, if_pos ha] at h
      subst h; exact ⟨List.mem_cons_self a t, ha⟩
    · simp only [firstSuch, if_neg ha] at h
      obtain ⟨hm, hp⟩ := ih h
      exact ⟨List.mem_cons_of_mem a hm, hp⟩

theorem charUtf8_length_pos (c : Char) : 1 ≤ (charUtf8 c).length := by
  simp only [charUtf8]
  split_ifs <;> simp

theorem utf8Bytes_cons (c : Char) (t : Str) :
    utf8Bytes (c :: t) = charUtf8 c ++ utf8Bytes t := by
  simp [utf8Bytes]

/-- Taking `j ≤ n` bytes of the UTF-8 encoding of the first `n`
characters is the same as taking `j` bytes of the whole encoding:
every character encodes to at least one byte. -/
theorem utf8_take_take (l : Str) (n j : Nat) (h : j ≤ n) :
    (utf8Bytes (l.take n)).take j = (utf8Bytes l).take j := by
  induction l generalizing n j with
  | nil => simp
  | cons c t ih =>
    match n with
    | 0 =>
      have hj : j = 0 := Nat.le_zero.mp h
      simp [hj]
    | Nat.succ m =>
      rw [List.take_succ_cons, utf8Bytes_cons, utf8Bytes_cons,
        List.take_append_eq_append_take, List.take_append_eq_append_take]
      have hle : j - (charUtf8 c).length ≤ m := by
        have := charUtf8_length_pos c
        omega
      rw [ih m (j - (charUtf8 c).length) hle]

theorem bcryptMaterial_take (p : Str) :
    bcryptMaterial (p.take 72) = bcryptMaterial p := by
  unfold bcryptMaterial
  exact utf8_take_take p 72 72 le_rfl

/-- The score computed inline by `submit_diagnosis` agrees with the
scoring rule as the spec words it. -/
theorem computeScore_eq_specScore (canonical submitted : Str) :
    computeScore canonical submitted = specScore canonical submitted := by
  unfold computeScore specScore pyNormalize
  simp [Bool.or_eq_true]

/-! ## Claims -/

/-- C5: a token issued for `subject` with lifetime `ttl` validates to
`subject` before the expiry instant and fails validation after
`now + ttl` has passed; with no lifetime supplied `create_access_token`
defaults the expiry to now + 15 minutes, while a login-issued token
expires at now + the configured 24-hour lifetime. -/
theorem token_round_trip (subject : Str) (ttl now now' : Nat) (key : Str)
    (data : TokenData) :
    (now' < now + ttl →
      validate_token (create_access_token ⟨some subject⟩ (some ttl) now key) key now'
        = some subject) ∧
    (now + ttl < now' →
      validate_token (create_access_token ⟨some subject⟩ (some ttl) now key) key now'
        = none) ∧
    (create_access_token data none now key).exp = now + 15 ∧
    (login_token subject now key).exp = now + 60 * 24 := by
  refine ⟨?_, ?_, rfl, rfl⟩
  · intro h
    have hc : (create_access_token ⟨some subject⟩ (some ttl) now key).key = key ∧
        now' ≤ (create_access_token ⟨some subject⟩ (some ttl) now key).exp :=
      ⟨rfl, Nat.le_of_lt h⟩
    unfold validate_token jwt_decode
    rw [if_pos hc]
    rfl
  · intro h
    have hc : ¬ ((create_access_token ⟨some subject⟩ (some ttl) now key).key = key ∧
        now' ≤ (create_access_token ⟨some subject⟩ (some ttl) now key).exp) := by
      rintro ⟨-, hle⟩
      change now' ≤ now + ttl at hle
      omega
    unfold validate_token jwt_decode
    rw [if_neg hc]

/-- Witness for C5 at subject "alice", ttl 10, issued at 0, checked at
5 and at 11. -/
theorem token_round_trip_witness :
    validate_token (create_access_token ⟨some "alice".data⟩ (some 10) 0 "k".data)
        "k".data 5 = some "alice".data ∧
    validate_token (create_access_token ⟨some "alice".data⟩ (some 10) 0 "k".data)
        "k".data 11 = none := by
  have h := token_round_trip "alice".data 10 0 5 "k".data ⟨none⟩
  have h' := token_round_trip "alice".data 10 0 11 "k".data ⟨none⟩
  exact ⟨h.1 (by decide), h'.2.1 (by decide)⟩

/-- C6: the credential store's hashing caps the key material at the
first 72 bytes of the password — `get_password_hash p` equals the
first 72 UTF-8 bytes of `p` — so two passwords agreeing on their first
72 bytes hash to equal digests, and each verifies against the other's
digest. -/
theorem password_hash_72_bytes (p₁ p₂ : Str)
    (h : (utf8Bytes p₁).take 72 = (utf8Bytes p₂).take 72) :
    get_password_hash p₁ = (utf8Bytes p₁).take 72 ∧
    get_password_hash p₁ = get_password_hash p₂ ∧
    verify_password p₁ (get_password_hash p₂) = true ∧
    verify_password p₂ (get_password_hash p₁) = true := by
  have e₁ : get_password_hash p₁ = (utf8Bytes p₁).take 72 :=
    bcryptMaterial_take p₁
  have e₂ : get_password_hash p₂ = (utf8Bytes p₂).take 72 :=
    bcryptMaterial_take p₂
  refine ⟨e₁, ?_, ?_, ?_⟩
  · rw [e₁, e₂, h]
  · simp only [verify_password, e₂, bcryptMaterial, ← h, beq_iff_eq]
  · simp only [verify_password, e₁, bcryptMaterial, h, beq_iff_eq]

/-- Witness for C6: two 80-byte ASCII passwords agreeing on their
first 72 bytes. -/
theorem password_hash_72_bytes_witness :
    (utf8Bytes (List.replicate 72 'a' ++ List.replicate 8 'x')).take 72
      = (utf8Bytes (List.replicate 72 'a' ++ List.replicate 8 'y')).take 72 ∧
    get_password_hash (List.replicate 72 'a' ++ List.replicate 8 'x')
      = get_password_hash (List.replicate 72 'a' ++ List.replicate 8 'y') := by
  have h :
      (utf8Bytes (List.replicate 72 'a' ++ List.replicate 8 'x')).take 72
        = (utf8Bytes (List.replicate 72 'a' ++ List.replicate 8 'y')).take 72 := by
    decide
  exact ⟨h, (password_hash_72_bytes _ _ h).2.1⟩

/-- C1: on a successful submission the score is computed exactly by
the spec's rule — normalize both strings by lower-casing and stripping,
then 100 on a mutual-substring hit and 0 otherwise — and the three
spec examples behave as stated when run through `submit_diagnosis`
itself (canonical "Pneumonia" / submission "pneumonia" scores 100,
"Acute Appendicitis" / "appendicitis" scores 100, "Flu" /
"Common Cold" scores 0). -/
theorem submit_diagnosis_scoring (db : DB) (u : User) (sid : Nat) (diagnosis : Str)
    (now : Nat) (s : Sess) (c : Case)
    (hrole : u.role = UserRole.student)
    (hfind : db.findSession sid = some s)
    (hown : s.student_id = u.id)
    (hcase : db.findCase s.case_id = some c) :
    submit_diagnosis db u sid diagnosis now =
      .ok (db.updateSession
            { s with student_diagnosis := some diagnosis
                     diagnosis_submitted := some now
                     status := SessionStatus.completed
                     score := some (specScore c.diagnosis diagnosis) })
          { s with student_diagnosis := some diagnosis
                   diagnosis_submitted := some now
                   status := SessionStatus.completed
                   score := some (specScore c.diagnosis diagnosis) } ∧
    scoreOf (submit_diagnosis (exDB "Pneumonia".data) exStudent 5 "pneumonia".data 7)
      = some 100 ∧
    scoreOf (submit_diagnosis (exDB "Acute Appendicitis".data) exStudent 5
      "appendicitis".data 7) = some 100 ∧
    scoreOf (submit_diagnosis (exDB "Flu".data) exStudent 5 "Common Cold".data 7)
      = some 0 := by
  refine ⟨?_, by decide, by decide, by decide⟩
  simp [submit_diagnosis, hrole, hfind, hown, hcase, computeScore_eq_specScore]

/-- Witness for C1: the "Pneumonia" example discharged through the
theorem itself. -/
theorem submit_diagnosis_scoring_witness :
    submit_diagnosis (exDB "Pneumonia".data) exStudent 5 "pneumonia".data 7 =
      .ok ((exDB "Pneumonia".data).updateSession
            { exSession with student_diagnosis := some "pneumonia".data
                             diagnosis_submitted := some 7
                             status := SessionStatus.completed
                             score := some (specScore "Pneumonia".data "pneumonia".data) })
          { exSession with student_diagnosis := some "pneumonia".data
                           diagnosis_submitted := some 7
                           status := SessionStatus.completed
                           score := some (specScore "Pneumonia".data "pneumonia".data) } :=
  (submit_diagnosis_scoring (exDB "Pneumonia".data) exStudent 5 "pneumonia".data 7
    exSession (exCase "Pneumonia".data) rfl (by decide) rfl (by decide)).1

/-- C3: `submit_diagnosis` checks only existence (404) and ownership
(403); there is no status guard, so for any session owned by the
caller — whatever its current status, COMPLETED included — the call
succeeds, overwrites the diagnosis text, stamps `diagnosis_submitted`,
moves the status to COMPLETED and recomputes the score; concretely,
completing session 5 with score 100 and re-submitting "Common Cold"
rescores it to 0. -/
theorem submit_diagnosis_ownership_only (db : DB) (u : User) (sid : Nat)
    (diagnosis : Str) (now : Nat) (hrole : u.role = UserRole.student) :
    (db.findSession sid = none →
      submit_diagnosis db u sid diagnosis now = .err .notFound) ∧
    (∀ s, db.findSession sid = some s → s.student_id ≠ u.id →
      submit_diagnosis db u sid diagnosis now = .err .authorizationError) ∧
    (∀ s c, db.findSession sid = some s → s.student_id = u.id →
      db.findCase s.case_id = some c →
      submit_diagnosis db u sid diagnosis now =
        .ok (db.updateSession
              { s with student_diagnosis := some diagnosis
                       diagnosis_submitted := some now
                       status := SessionStatus.completed
                       score := some (specScore c.diagnosis diagnosis) })
            { s with student_diagnosis := some diagnosis
                     diagnosis_submitted := some now
                     status := SessionStatus.completed
                     score := some (specScore c.diagnosis diagnosis) }) ∧
    scoreOf (submit_diagnosis (exDB "Flu".data) exStudent 5 "flu".data 7)
      = some 100 ∧
    resubmitScore = some 0 := by
  refine ⟨?_, ?_, ?_, by decide, by decide⟩
  · intro hnone
    simp [submit_diagnosis, hrole, hnone]
  · intro s hfind hnotown
    simp [submit_diagnosis, hrole, hfind, hnotown]
  · intro s c hfind hown hcase
    simp [submit_diagnosis, hrole, hfind, hown, hcase, computeScore_eq_specScore]

/-- Witness for C3: an unknown session id is rejected with 404. -/
theorem submit_diagnosis_ownership_only_witness :
    submit_diagnosis (exDB "Flu".data) exStudent 99 "x".data 0 = .err .notFound :=
  (submit_diagnosis_ownership_only (exDB "Flu".data) exStudent 99 "x".data 0
    rfl).1 (by decide)

/-- C2: starting a session is idempotent while one is open — when an
IN_PROGRESS row for (student, case) exists, `create_session` returns
that row and leaves the store untouched; when none exists it appends
exactly one new IN_PROGRESS row with score unset; and any successful
call keeps the per-(student, case) count of IN_PROGRESS rows at most
one, given it was at most one before. -/
theorem create_session_idempotent (db : DB) (u : User) (case_id now : Nat)
    (c : Case) (hrole : u.role = UserRole.student)
    (hcase : db.findCase case_id = some c) :
    (∀ s₀, firstSuch (openSessionFor u.id case_id) db.sessions = some s₀ →
      create_session db u case_id now = .ok db s₀) ∧
    (firstSuch (openSessionFor u.id case_id) db.sessions = none →
      create_session db u case_id now =
        .ok { db with
                sessions := db.sessions ++
                  [{ id := db.nextSessionId, student_id := u.id, case_id := case_id,
                     status := SessionStatus.in_progress, score := none,
                     started_at := now, completed_at := none,
                     diagnosis_submitted := none, student_diagnosis := none }],
                nextSessionId := db.nextSessionId + 1 }
          { id := db.nextSessionId, student_id := u.id, case_id := case_id,
            status := SessionStatus.in_progress, score := none, started_at := now,
            completed_at := none, diagnosis_submitted := none,
            student_diagnosis := none }) ∧
    (∀ db' s, create_session db u case_id now = .ok db' s →
      (∀ sid cid, inProgressCount db sid cid ≤ 1) →
      ∀ sid cid, inProgressCount db' sid cid ≤ 1) := by
  refine ⟨?_, ?_, ?_⟩
  · intro s₀ hfs
    simp [create_session, hrole, hcase, hfs]
  · intro hfs
    simp [create_session, hrole, hcase, hfs]
  · intro db' s hok hbound sid cid
    cases hfs : firstSuch (openSessionFor u.id case_id) db.sessions with
    | some s₀ =>
      simp [create_session, hrole, hcase, hfs] at hok
      obtain ⟨rfl, -⟩ := hok
      exact hbound sid cid
    | none =>
      simp [create_session, hrole, hcase, hfs] at hok
      obtain ⟨rfl, -⟩ := hok
      unfold inProgressCount at hbound ⊢
      simp only [List.countP_append]
      by_cases hpair : sid = u.id ∧ cid = case_id
      · obtain ⟨h1, h2⟩ := hpair
        rw [h1, h2]
        have hz : db.sessions.countP
            (fun s => decide (openSessionFor u.id case_id s)) = 0 := by
          rw [List.countP_eq_zero]
          intro a ha
          simpa using firstSuch_eq_none.mp hfs a ha
        rw [hz]
        simp [openSessionFor]
      · have hz : List.countP (fun s => decide (openSessionFor sid cid s))
            [{ id := db.nextSessionId, student_id := u.id, case_id := case_id,
               status := SessionStatus.in_progress, score := none,
               started_at := now, completed_at := none,
               diagnosis_submitted := none, student_diagnosis := none }] = 0 := by
          simp only [List.countP_cons, List.countP_nil, Nat.zero_add]
          simp only [openSessionFor]
          simp only [decide_eq_true_eq]
          split
          · rename_i hmatch
            exact absurd ⟨hmatch.1.symm, hmatch.2.1.symm⟩ hpair
          · rfl
        rw [hz]
        simpa using hbound sid cid

/-- Witness for C2: on the store with no session rows, the call
creates session 5 and yields the populated store. -/
theorem create_session_idempotent_witness :
    create_session (exDB0 "Flu".data) exStudent 1 0 = .ok (exDB "Flu".data) exSession :=
  (create_session_idempotent (exDB0 "Flu".data) exStudent 1 0 (exCase "Flu".data)
    rfl (by decide)).2.1 (by decide)

/-- C4: `create_dialogue` rejects an unknown session with 404, a
session of another student with 403, an owned session that is not
IN_PROGRESS with the invalid-state error, and in exactly the remaining
case appends one Dialogue — so every successful call happened against
an owned IN_PROGRESS session. -/
theorem create_dialogue_guards (db : DB) (u : User) (sid : Nat) (m : Str)
    (r : DialogueRole) (now : Nat) (hrole : u.role = UserRole.student) :
    (db.findSession sid = none → create_dialogue db u sid m r now = .err .notFound) ∧
    (∀ s, db.findSession sid = some s → s.student_id ≠ u.id →
      create_dialogue db u sid m r now = .err .authorizationError) ∧
    (∀ s, db.findSession sid = some s → s.student_id = u.id →
      s.status ≠ SessionStatus.in_progress →
      create_dialogue db u sid m r now = .err .invalidState) ∧
    (∀ s, db.findSession sid = some s → s.student_id = u.id →
      s.status = SessionStatus.in_progress →
      create_dialogue db u sid m r now =
        .ok { db with
                dialogues := db.dialogues ++
                  [{ id := db.nextDialogueId, session_id := sid, message := m,
                     role := r, timestamp := now }],
                nextDialogueId := db.nextDialogueId + 1 }
          { id := db.nextDialogueId, session_id := sid, message := m, role := r,
            timestamp := now }) ∧
    (∀ db' dlg, create_dialogue db u sid m r now = .ok db' dlg →
      ∃ s, db.findSession sid = some s ∧ s.student_id = u.id ∧
        s.status = SessionStatus.in_progress ∧
        db'.dialogues = db.dialogues ++ [dlg]) := by
  refine ⟨?_, ?_, ?_, ?_, ?_⟩
  · intro hfs
    simp [create_dialogue, hrole, hfs]
  · intro s hfs hown
    simp [create_dialogue, hrole, hfs, hown]
  · intro s hfs hown hst
    simp [create_dialogue, hrole, hfs, hown, hst]
  · intro s hfs hown hst
    simp [create_dialogue, hrole, hfs, hown, hst]
  · intro db' dlg hok
    cases hfs : db.findSession sid with
    | none => simp [create_dialogue, hrole, hfs] at hok
    | some s =>
      by_cases hown : s.student_id = u.id
      · by_cases hst : s.status = SessionStatus.in_progress
        · refine ⟨s, rfl, hown, hst, ?_⟩
          simp [create_dialogue, hrole, hfs, hown, hst] at hok
          obtain ⟨rfl, rfl⟩ := hok
          rfl
        · simp [create_dialogue, hrole, hfs, hown, hst] at hok
      · simp [create_dialogue, hrole, hfs, hown] at hok

/-- Witness for C4: a message is appended to the open session 5. -/
theorem create_dialogue_guards_witness :
    create_dialogue (exDB "Flu".data) exStudent 5 "hi".data DialogueRole.user 3 =
      .ok { exDB "Flu".data with
              dialogues := [{ id := 1, session_id := 5, message := "hi".data,
                              role := DialogueRole.user, timestamp := 3 }],
              nextDialogueId := 2 }
        { id := 1, session_id := 5, message := "hi".data,
          role := DialogueRole.user, timestamp := 3 } :=
  (create_dialogue_guards (exDB "Flu".data) exStudent 5 "hi".data
    DialogueRole.user 3 rfl).2.2.2.1 exSession (by decide) rfl rfl

/-- C7: only the creator may update a case — any other teacher gets
403 even though authenticated — and the update has exact partial-frame
semantics: each field present in the request takes the supplied value,
every omitted field (id, created_by and created_at included) keeps its
previous value. The returned record spells this out field by field. -/
theorem update_case_creator_and_frame (db : DB) (u : User) (cid : Nat)
    (cu : CaseUpdate) (hrole : u.role = UserRole.teacher) :
    (∀ c, db.findCase cid = some c → c.created_by ≠ u.id →
      update_case db u cid cu = .err .authorizationError) ∧
    (∀ c, db.findCase cid = some c → c.created_by = u.id →
      update_case db u cid cu =
        .ok (db.updateCase
              { id := c.id
                title := cu.title.getD c.title
                description := cu.description.getD c.description
                patient_info := cu.patient_info.getD c.patient_info
                symptoms := cu.symptoms.getD c.symptoms
                questions := cu.questions.getD c.questions
                answers := cu.answers.getD c.answers
                diagnosis := cu.diagnosis.getD c.diagnosis
                difficulty := cu.difficulty.getD c.difficulty
                created_by := c.created_by
                created_at := c.created_at })
            { id := c.id
              title := cu.title.getD c.title
              description := cu.description.getD c.description
              patient_info := cu.patient_info.getD c.patient_info
              symptoms := cu.symptoms.getD c.symptoms
              questions := cu.questions.getD c.questions
              answers := cu.answers.getD c.answers
              diagnosis := cu.diagnosis.getD c.diagnosis
              difficulty := cu.difficulty.getD c.difficulty
              created_by := c.created_by
              created_at := c.created_at }) := by
  refine ⟨?_, ?_⟩
  · intro c hfind hnotmine
    simp [update_case, hrole, hfind, hnotmine]
  · intro c hfind hmine
    simp [update_case, hrole, hfind, hmine]

/-- Witness for C7: teacher 2 updates only the diagnosis of case 1;
every other field of the stored case survives unchanged. -/
theorem update_case_creator_and_frame_witness :
    update_case (exDB "Flu".data) exTeacher 1
        { title := none, description := none, patient_info := none,
          symptoms := none, questions := none, answers := none,
          diagnosis := some "Influenza".data, difficulty := none } =
      .ok ((exDB "Flu".data).updateCase
            { exCase "Flu".data with diagnosis := "Influenza".data })
        { exCase "Flu".data with diagnosis := "Influenza".data } :=
  (update_case_creator_and_frame (exDB "Flu".data) exTeacher 1
      { title := none, description := none, patient_info := none,
        symptoms := none, questions := none, answers := none,
        diagnosis := some "Influenza".data, difficulty := none } rfl).2
    (exCase "Flu".data) (by decide) rfl

/-- C8: the per-student report returns the number of the student's
sessions, the number of completed ones among them, the arithmetic mean
of the recorded scores of completed sessions (absent when there are
none), and the number of distinct case ids attempted; the spec's
concrete example — 3 sessions, 2 completed scoring 100 and 0, over 2
distinct cases — yields (3, 2, 50.0, 2). -/
theorem get_student_stats_correct (db : DB) (u : User)
    (hrole : u.role = UserRole.student) :
    (let sessions := db.sessions.filter (fun s => s.student_id = u.id)
     let completed := sessions.filter (fun s => s.status = SessionStatus.completed)
     let scores := (completed.map (fun s => s.score)).reduceOption
     get_student_stats db u = .ok db
       { total_sessions := sessions.length
         completed_sessions := completed.length
         average_score :=
           if scores ≠ [] then
             some ((scores.map (Int.cast : Int → ℚ)).sum / scores.length)
           else none
         total_cases_attempted := (sessions.map (fun s => s.case_id)).toFinset.card }) ∧
    get_student_stats exStatsDB exStudent = .ok exStatsDB
      { total_sessions := 3, completed_sessions := 2,
        average_score := some 50, total_cases_attempted := 2 } := by
  constructor
  · simp [get_student_stats, hrole, List.card_toFinset]
  · simp [get_student_stats, exStatsDB, exStudent, exCase, List.reduceOption,
      List.dedup]
    norm_num

/-- Witness for C8 at the three-session example store. -/
theorem get_student_stats_correct_witness :
    get_student_stats exStatsDB exStudent = .ok exStatsDB
      { total_sessions := 3, completed_sessions := 2,
        average_score := some 50, total_cases_attempted := 2 } :=
  (get_student_stats_correct exStatsDB exStudent rfl).2

/-- C9: reading a single case needs only authentication: for any user
of either role, an existing case is returned in full — the canonical
diagnosis included — and the result does not depend on who asks (no
role, ownership or enrollment check). -/
theorem get_case_no_access_check (db : DB) (u : User) (cid : Nat) (c : Case)
    (h : db.findCase cid = some c) :
    get_case db u cid = .ok db c ∧
    (∀ u' : User, get_case db u' cid = get_case db u cid) := by
  constructor
  · simp [get_case, h]
  · intro u'
    rfl

/-- Witness for C9: the student whose session 5 on case 1 is still
IN_PROGRESS reads case 1 — diagnosis string included — successfully. -/
theorem get_case_no_access_check_witness :
    get_case (exDB "Flu".data) exStudent 1 = .ok (exDB "Flu".data) (exCase "Flu".data) :=
  (get_case_no_access_check (exDB "Flu".data) exStudent 1 (exCase "Flu".data)
    (by decide)).1

theorem create_session_sessions_cases {db : DB} {u : User} {case_id now : Nat}
    {db' : DB} {s : Sess} (h : create_session db u case_id now = .ok db' s) :
    db'.sessions = db.sessions ∨
    db'.sessions = db.sessions ++
      [{ id := db.nextSessionId, student_id := u.id, case_id := case_id,
         status := SessionStatus.in_progress, score := none, started_at := now,
         completed_at := none, diagnosis_submitted := none,
         student_diagnosis := none }] := by
  unfold create_session at h
  split at h
  · simp at h
  · split at h
    · simp at h
    · split at h
      · simp only [OpResult.ok.injEq] at h
        obtain ⟨rfl, -⟩ := h
        exact Or.inl rfl
      · simp only [OpResult.ok.injEq] at h
        obtain ⟨rfl, -⟩ := h
        exact Or.inr rfl

theorem submit_diagnosis_sessions_cases {db : DB} {u : User} {sid : Nat}
    {d : Str} {now : Nat} {db' : DB} {s' : Sess}
    (h : submit_diagnosis db u sid d now = .ok db' s') :
    ∃ s₀, s₀ ∈ db.sessions ∧
      s'.completed_at = s₀.completed_at ∧
      s'.diagnosis_submitted = some now ∧
      db'.sessions = db.sessions.map (fun t => if t.id = s'.id then s' else t) := by
  unfold submit_diagnosis at h
  split at h
  · simp at h
  · split at h
    · simp at h
    · rename_i s hfs
      split at h
      · simp at h
      · split at h
        · simp at h
        · rename_i c hcase
          simp only [OpResult.ok.injEq] at h
          obtain ⟨rfl, rfl⟩ := h
          have hmem := (firstSuch_eq_some
            (show firstSuch (fun t => t.id = sid) db.sessions = some s from hfs)).1
          exact ⟨s, hmem, rfl, rfl, rfl⟩

theorem create_dialogue_sessions_eq {db : DB} {u : User} {sid : Nat} {m : Str}
    {r : DialogueRole} {now : Nat} {db' : DB} {dlg : Dialogue}
    (h : create_dialogue db u sid m r now = .ok db' dlg) :
    db'.sessions = db.sessions := by
  unfold create_dialogue at h
  split at h
  · simp at h
  · split at h
    · simp at h
    · split at h
      · simp at h
      · split at h
        · simp at h
        · simp only [OpResult.ok.injEq] at h
          obtain ⟨rfl, -⟩ := h
          rfl

theorem update_case_sessions_eq {db : DB} {u : User} {cid : Nat}
    {cu : CaseUpdate} {db' : DB} {c' : Case}
    (h : update_case db u cid cu = .ok db' c') :
    db'.sessions = db.sessions := by
  unfold update_case at h
  split at h
  · simp at h
  · split at h
    · simp at h
    · split at h
      · simp at h
      · simp only [OpResult.ok.injEq] at h
        obtain ⟨rfl, -⟩ := h
        rfl

/-- C10: in every store reachable through the modelled operations, no
session ever carries a `completed_at` timestamp — `submit_diagnosis`
stamps only `diagnosis_submitted` — so a COMPLETED session always has
`diagnosis_submitted` set while `completed_at` is still absent. -/
theorem completed_at_never_set (db : DB) (h : Reachable db) :
    ∀ s ∈ db.sessions, s.completed_at = none ∧
      (s.status = SessionStatus.completed → s.diagnosis_submitted ≠ none) := by
  induction h with
  | init db0 hempty =>
    intro s hs
    rw [hempty] at hs
    cases hs
  | step hr hstep ih =>
    cases hstep with
    | startSession u case_id now dbB snew hok =>
      rcases create_session_sessions_cases hok with he | he
      · intro t ht
        rw [he] at ht
        exact ih t ht
      · intro t ht
        rw [he] at ht
        rcases List.mem_append.mp ht with hold | hnew
        · exact ih t hold
        · rw [List.mem_singleton.mp hnew]
          exact ⟨rfl, by simp⟩
    | submitDiag u sid d now dbB snew hok =>
      obtain ⟨s₀, hmem, hca, hds, hsess⟩ := submit_diagnosis_sessions_cases hok
      intro t ht
      rw [hsess] at ht
      rcases List.mem_map.mp ht with ⟨t₀, ht₀, heq⟩
      by_cases hid : t₀.id = snew.id
      · rw [if_pos hid] at heq
        subst heq
        refine ⟨?_, ?_⟩
        · rw [hca]
          exact (ih s₀ hmem).1
        · intro hcmpl
          rw [hds]
          simp
      · rw [if_neg hid] at heq
        subst heq
        exact ih t₀ ht₀
    | addDialogue u sid m r now dbB dlg hok =>
      intro t ht
      rw [create_dialogue_sessions_eq hok] at ht
      exact ih t ht
    | caseUpdate u cid cu dbB cc hok =>
      intro t ht
      rw [update_case_sessions_eq hok] at ht
      exact ih t ht

/-- Witness for C10: starting from the empty-session store, one
`create_session` step reaches the populated example store, whose
session indeed has no `completed_at`. -/
theorem completed_at_never_set_witness :
    exSession.completed_at = none ∧
      (exSession.status = SessionStatus.completed →
        exSession.diagnosis_submitted ≠ none) :=
  completed_at_never_set (exDB "Flu".data)
    (Reachable.step (Reachable.init (exDB0 "Flu".data) rfl)
      (Step.startSession (exDB0 "Flu".data) exStudent 1 0 (exDB "Flu".data)
        exSession (by decide)))
    exSession (by decide)

end ClinicalThinking

